import Mathlib

/-!
Verification of the x86 jump-label header (`arch_static_branch`,
`arch_static_branch_jump`, `JUMP_TABLE_ENTRY`, `ARCH_STATIC_BRANCH_ASM`,
`arch_jump_entry_size`), the mentor example driver (`__mentor_read`,
`mentor_write`) and the `kallsyms_gen_longest` generator, as a shallow
embedding in Lean 4.
-/

/- ## Site model for the inlined branch check (arch/x86 jump_label.h) -/

/-- Outcome of executing an `asm goto` block: control either falls through to
the statement after the block, or transfers to the `l_yes` label listed in the
goto-label clause.  These are the only two exits the compiler allows for the
inline assembly in `arch_static_branch` and `arch_static_branch_jump`. -/
inductive AsmGotoOutcome where
  | fallthrough
  | jumpToLYes
  deriving DecidableEq

/-- Body of `arch_static_branch` compiled with `CONFIG_HAVE_JUMP_LABEL_HACK`:
after the `asm goto`, falling through executes `return false`, while the
`l_yes:` label executes `return true`. -/
def arch_static_branch_hack (o : AsmGotoOutcome) : Bool :=
  match o with
  | .fallthrough => false
  | .jumpToLYes => true

/-- Body of `arch_static_branch` compiled without `CONFIG_HAVE_JUMP_LABEL_HACK`:
same control skeleton, `return false` on fallthrough and `return true` at
`l_yes`. -/
def arch_static_branch (o : AsmGotoOutcome) : Bool :=
  match o with
  | .fallthrough => false
  | .jumpToLYes => true

/-- Body of `arch_static_branch_jump` (shared by both configurations):
`return false` on fallthrough, `return true` at `l_yes`. -/
def arch_static_branch_jump (o : AsmGotoOutcome) : Bool :=
  match o with
  | .fallthrough => false
  | .jumpToLYes => true

/- ## The jump table entry (JUMP_TABLE_ENTRY macro) -/

/-- One field of a `__jump_table` record: the byte width the assembler
directive reserves, the address `.` at which the field itself is stored, and
the value stored there. -/
structure JumpTableField where
  width : Nat
  addr : Int
  value : Int
  deriving DecidableEq

/-- The record emitted by `JUMP_TABLE_ENTRY(l_yes, key, branch)` into the
`__jump_table` section, starting at address `base` after `_ASM_ALIGN`:

  `.long 1b - .`                (the site address `1b` minus this field's `.`)
  `.long l_yes - .`             (the label address minus this field's `.`)
  `_ASM_PTR key + branch - .`   (the key operand minus this field's `.`)

`.long` reserves 4 bytes; `_ASM_PTR` reserves one pointer width, passed here
as `ptrSize` (modelled from the spec: `_ASM_PTR` is defined outside these
sources and the spec calls the key-reference field pointer-width).
`keyOperand` is the value of the expression `key + branch` in the asm. -/
def JUMP_TABLE_ENTRY (ptrSize : Nat) (base site lYes keyOperand : Int) :
    List JumpTableField :=
  [⟨4, base, site - base⟩,
   ⟨4, base + 4, lYes - (base + 4)⟩,
   ⟨ptrSize, base + 8, keyOperand - (base + 8)⟩]

/-- The polarity bit: the `branch` boolean as the integer 0 or 1. -/
def polarityBit (branch : Bool) : Nat :=
  if branch then 1 else 0

/-- The constant the C code passes as the `branch` operand of
`JUMP_TABLE_ENTRY` from `arch_static_branch`: with
`CONFIG_HAVE_JUMP_LABEL_HACK` the input is `"i" (2 | branch)`, without it the
input is `"i" (branch)`. -/
def branchOperand (hack : Bool) (branch : Bool) : Nat :=
  if hack then 2 ||| polarityBit branch else polarityBit branch

/-- The constant `arch_static_branch_jump` passes as the `branch` operand of
`JUMP_TABLE_ENTRY`: always `"i" (branch)`, in both configurations. -/
def branchOperandJump (branch : Bool) : Nat :=
  polarityBit branch

/-- The value of the asm expression `key + branch` stored (self-relatively) in
the third field of the jump table entry, for `arch_static_branch`. -/
def key_field_operand (hack : Bool) (key : Nat) (branch : Bool) : Nat :=
  key + branchOperand hack branch

/- ## Site encodings (ARCH_STATIC_BRANCH_ASM) -/

/-- Modelled from the spec: `BYTES_NOP5` comes from `asm/nops.h`, which is not
among these sources; the spec describes it as the 5-byte no-effect padding
instruction ("the 5-byte NOP").  These are the bytes of the canonical x86
5-byte nop, `nopl 0x0(%rax,%rax,1)`. -/
def BYTES_NOP5 : List Nat := [0x0f, 0x1f, 0x44, 0x00, 0x00]

/-- Little-endian 4-byte encoding of a 32-bit displacement. -/
def int32le (r : Int) : List Nat :=
  let n := (r % (2 ^ 32)).toNat
  [n % 2 ^ 8, n / 2 ^ 8 % 2 ^ 8, n / 2 ^ 16 % 2 ^ 8, n / 2 ^ 24 % 2 ^ 8]

/-- Modelled from the spec: the byte encoding of the unconditional transfer
`jmp l_yes` written by the asm text (the instruction itself is emitted by the
assembler, outside these sources); the spec calls it "the 5-byte jmp":
opcode `0xe9` followed by a 32-bit relative displacement. -/
def jmp_rel32 (rel : Int) : List Nat :=
  0xe9 :: int32le rel

/-- The bytes `ARCH_STATIC_BRANCH_ASM(l_yes, key, branch)` installs at the
compiled site (label `1:`): with `CONFIG_HAVE_JUMP_LABEL_HACK` it emits
`jmp l_yes` (variant A), without it it emits `.byte BYTES_NOP5` (variant B).
The `#ifdef`/`#else` pair compiles exactly one of the two texts into any
given build. -/
def ARCH_STATIC_BRANCH_ASM_bytes (hack : Bool) (rel : Int) : List Nat :=
  if hack then jmp_rel32 rel else BYTES_NOP5

/-- Modelled from the spec: `arch_jump_entry_size` is only declared `extern`
in these sources; per the spec it positively recognizes the instruction at
the site by decoding its lead byte(s) against the two encodings the system
emits (padding or transfer) and returns failure otherwise. -/
def arch_jump_entry_size (bytes : List Nat) : Option Nat :=
  if bytes = BYTES_NOP5 then some 5
  else if bytes.head? = some 0xe9 ∧ bytes.length = 5 then some 5
  else none

/- ## The mentor example driver -/

/-- The highest valid mentor address, holding the total-writes counter
(`include/linux/mentor.h`). -/
def MENTOR_TOTAL_WRITES_ADDR : Nat := 0x05

/-- One past the largest `u32` value. -/
def U32_LIMIT : Nat := 2 ^ 32

/-- The mentor register file: cells `0x00 .. 0x05`, each a `u32`
(`static u32 mentor_data[MENTOR_TOTAL_WRITES_ADDR + 1]`). -/
abbrev MentorState : Type := Fin 6 → Nat

/-- The initializer of `mentor_data`: `{ 40, 41, 42, 43, 44, 0 }`. -/
def mentor_data_init : MentorState :=
  fun i => [40, 41, 42, 43, 44, 0].getD i.val 0

/-- `mentor_simulate_undefined_behavior`: logs and returns `0xFFFFFFFF`,
touching no cell. -/
def mentor_simulate_undefined_behavior : Nat := 0xFFFFFFFF

/-- `__mentor_read`: addresses above `MENTOR_TOTAL_WRITES_ADDR` take the
undefined-behavior path; otherwise the cell is returned under the lock. -/
def __mentor_read (s : MentorState) (addr : Nat) : Nat :=
  if h : MENTOR_TOTAL_WRITES_ADDR < addr then mentor_simulate_undefined_behavior
  else s ⟨addr, by unfold MENTOR_TOTAL_WRITES_ADDR at h; omega⟩

/-- `mentor_write`: addresses at or above `MENTOR_TOTAL_WRITES_ADDR` take the
undefined-behavior path and change nothing; otherwise cell `addr` receives the
value and the counter cell is incremented (`u32` arithmetic, so modulo
`2 ^ 32`), under the lock. -/
def mentor_write (s : MentorState) (addr value : Nat) : MentorState :=
  if MENTOR_TOTAL_WRITES_ADDR ≤ addr then s
  else fun i =>
    if i.val = addr then value % U32_LIMIT
    else if i.val = MENTOR_TOTAL_WRITES_ADDR then (s i + 1) % U32_LIMIT
    else s i

/- ## kallsyms_gen_longest -/

/-- The fixed leading string `start[]` of `kallsyms_gen_longest.c`. -/
def kallsyms_start : List Char :=
  "start_of_the_longest_symbol_possible__".toList

/-- The fixed trailing string `end[]` of `kallsyms_gen_longest.c`. -/
def kallsyms_end : List Char :=
  "__end_of_the_longest_symbol_possible".toList

/-- The filler pattern `pattern[]` of `kallsyms_gen_longest.c`. -/
def kallsyms_pattern : List Char :=
  "123456789_".toList

/-- The filler loop: `len` iterations of `putchar(pattern[i % 10])`
(`sizeof(pattern) - 1` is 10). -/
def kallsyms_filler (len : Nat) : List Char :=
  (List.range len).map (fun i => kallsyms_pattern.getD (i % 10) ' ')

/-- `main` of `kallsyms_gen_longest.c`, parametrized by `KSYM_NAME_LEN`
(defined in `linux/kallsyms.h`, outside these sources): the pair of the
characters written to standard output and the exit status.  The filler
length is `(KSYM_NAME_LEN - 1) - (sizeof(start) - 1) - (sizeof(end) - 1)`. -/
def kallsyms_gen_longest_main (ksymNameLen : Nat) : List Char × Nat :=
  (kallsyms_start ++
     kallsyms_filler
       ((ksymNameLen - 1) - kallsyms_start.length - kallsyms_end.length) ++
     kallsyms_end,
   0)

/- ## Theorems -/

/-- Claim C1: in every variant of the inlined branch check
(`arch_static_branch` with and without `CONFIG_HAVE_JUMP_LABEL_HACK`, and
`arch_static_branch_jump`), falling through the compiled site yields the
"not taken" result `false`, and the result is `true` exactly when control
transfers to the associated label `l_yes`. -/
theorem branch_check_outcome (o : AsmGotoOutcome) :
    (arch_static_branch o = false ↔ o = .fallthrough) ∧
    (arch_static_branch o = true ↔ o = .jumpToLYes) ∧
    (arch_static_branch_hack o = false ↔ o = .fallthrough) ∧
    (arch_static_branch_hack o = true ↔ o = .jumpToLYes) ∧
    (arch_static_branch_jump o = false ↔ o = .fallthrough) ∧
    (arch_static_branch_jump o = true ↔ o = .jumpToLYes) := by
  cases o <;> simp [arch_static_branch, arch_static_branch_hack,
    arch_static_branch_jump]

/-- Counterexample to claim C2 as stated: on a target whose pointer width is
8 bytes, the three fields of a jump table entry have widths 4, 4 and 8 — the
site-offset and label-offset fields are `.long` (4 bytes), not
pointer-width. -/
theorem jump_table_entry_width_counterexample :
    (JUMP_TABLE_ENTRY 8 0 0 0 0).map JumpTableField.width = [4, 4, 8] ∧
    ¬ (JUMP_TABLE_ENTRY 8 0 0 0 0).map JumpTableField.width = [8, 8, 8] := by
  decide

/-- Claim C2 (amended): every jump table entry is a fixed-size record of two
32-bit self-relative fields (site offset, label offset) and one pointer-width
self-relative field (key reference with polarity); each stored value is the
target address minus the field's own storage address (so adding the field's
own address recovers the target and no field holds an absolute pointer), and
the record's size `8 + ptrSize` does not depend on the addresses stored. -/
theorem jump_table_entry_self_relative (ptrSize : Nat)
    (base site lYes keyOperand : Int) :
    (JUMP_TABLE_ENTRY ptrSize base site lYes keyOperand).map
      JumpTableField.width = [4, 4, ptrSize] ∧
    ((JUMP_TABLE_ENTRY ptrSize base site lYes keyOperand).getD 0
        ⟨0, 0, 0⟩).value +
      ((JUMP_TABLE_ENTRY ptrSize base site lYes keyOperand).getD 0
        ⟨0, 0, 0⟩).addr = site ∧
    ((JUMP_TABLE_ENTRY ptrSize base site lYes keyOperand).getD 1
        ⟨0, 0, 0⟩).value +
      ((JUMP_TABLE_ENTRY ptrSize base site lYes keyOperand).getD 1
        ⟨0, 0, 0⟩).addr = lYes ∧
    ((JUMP_TABLE_ENTRY ptrSize base site lYes keyOperand).getD 2
        ⟨0, 0, 0⟩).value +
      ((JUMP_TABLE_ENTRY ptrSize base site lYes keyOperand).getD 2
        ⟨0, 0, 0⟩).addr = keyOperand ∧
    ((JUMP_TABLE_ENTRY ptrSize base site lYes keyOperand).map
      JumpTableField.width).sum = 8 + ptrSize := by
  refine ⟨rfl, ?_, ?_, ?_, ?_⟩ <;> (simp [JUMP_TABLE_ENTRY]; try ring)

/-- Counterexample to claim C3 as stated: with `CONFIG_HAVE_JUMP_LABEL_HACK`,
`arch_static_branch` passes `2 | branch` as the key-field addend, so for
`branch = false` the addend is 2, not the bare polarity bit — a second bit
(bit 1) is packed into the field besides the polarity bit. -/
theorem branch_operand_counterexample :
    branchOperand true false = 2 ∧
    branchOperand true false ≠ polarityBit false := by
  decide

/-- Claim C3 (amended): in the non-hack variant of `arch_static_branch` and in
`arch_static_branch_jump` the key-field addend is exactly the single polarity
bit; in the `CONFIG_HAVE_JUMP_LABEL_HACK` variant of `arch_static_branch` the
addend is `2 | branch`, i.e. the polarity bit in bit 0 plus bit 1 always set,
so two low bits, not one, are packed into the key reference there. -/
theorem branch_operand_amended (branch : Bool) (key : Nat) :
    branchOperand false branch = polarityBit branch ∧
    branchOperand false branch < 2 ∧
    branchOperandJump branch = polarityBit branch ∧
    branchOperand true branch = 2 + polarityBit branch ∧
    (branchOperand true branch).testBit 0 = branch ∧
    (branchOperand true branch).testBit 1 = true ∧
    key_field_operand false key branch = key + polarityBit branch ∧
    key_field_operand true key branch = key + 2 + polarityBit branch := by
  have h2 : branchOperand true false = 2 := by decide
  have h3 : branchOperand true true = 3 := by decide
  cases branch <;>
    refine ⟨by decide, by decide, by decide, by decide, by decide, by decide,
      ?_, ?_⟩ <;>
    simp [key_field_operand, polarityBit, h2, h3, branchOperand]

/-- Claim C4: under variant B the placeholder installed at the compiled site
is `BYTES_NOP5`, whose byte length (5) exactly equals the byte length of the
`jmp` that replaces it when the key is enabled, for every displacement — so
enabling and disabling never change the site's total byte span. -/
theorem nop5_matches_jmp_length (rel : Int) :
    ARCH_STATIC_BRANCH_ASM_bytes false rel = BYTES_NOP5 ∧
    BYTES_NOP5.length = 5 ∧
    (jmp_rel32 rel).length = 5 ∧
    (jmp_rel32 rel).length = BYTES_NOP5.length := by
  refine ⟨rfl, rfl, ?_, ?_⟩ <;> simp [jmp_rel32, int32le, BYTES_NOP5]

/-- Claim C5: the compiled site encoding is selected by the build-time flag
`CONFIG_HAVE_JUMP_LABEL_HACK` and for any single build exactly one variant is
compiled in: with the flag the site is the unconditional `jmp` to the taken
label (variant A), without it the site is the inert `BYTES_NOP5` padding
(variant B) — and the two encodings are never the same bytes. -/
theorem site_variant_exclusive (hack : Bool) (rel : Int) :
    (ARCH_STATIC_BRANCH_ASM_bytes hack rel = jmp_rel32 rel ↔ hack = true) ∧
    (ARCH_STATIC_BRANCH_ASM_bytes hack rel = BYTES_NOP5 ↔ hack = false) := by
  have hne : jmp_rel32 rel ≠ BYTES_NOP5 := by
    intro h
    have := congrArg List.head? h
    simp [jmp_rel32, int32le, BYTES_NOP5] at this
  cases hack <;> simp [ARCH_STATIC_BRANCH_ASM_bytes, hne, Ne.symm hne]

/-- Claim C6: immediately after a patch installs either recognized encoding
at a site, `arch_jump_entry_size` returns exactly that encoding's byte
length; and on bytes that match neither the padding nor the transfer
encoding it returns failure (`none`) rather than a length. -/
theorem arch_jump_entry_size_correct (rel : Int) (bytes : List Nat) :
    arch_jump_entry_size BYTES_NOP5 = some BYTES_NOP5.length ∧
    arch_jump_entry_size (jmp_rel32 rel) = some (jmp_rel32 rel).length ∧
    (bytes ≠ BYTES_NOP5 →
      ¬ (bytes.head? = some 0xe9 ∧ bytes.length = 5) →
      arch_jump_entry_size bytes = none) := by
  have hne : jmp_rel32 rel ≠ BYTES_NOP5 := by
    intro h
    have := congrArg List.head? h
    simp [jmp_rel32, int32le, BYTES_NOP5] at this
  refine ⟨rfl, ?_, ?_⟩
  · simp [arch_jump_entry_size, hne, jmp_rel32, int32le]
  · intro h1 h2
    simp [arch_jump_entry_size, h1, h2]

/-- Witness for claim C6's theorem at concrete inputs: the oracle sizes the
nop and a concrete jmp at 5 bytes and fails on an unrecognized byte
pattern. -/
theorem arch_jump_entry_size_witness :
    arch_jump_entry_size BYTES_NOP5 = some 5 ∧
    arch_jump_entry_size (jmp_rel32 18) = some 5 ∧
    arch_jump_entry_size [1, 2, 3, 4, 5] = none := by
  refine ⟨(arch_jump_entry_size_correct 18 [1, 2, 3, 4, 5]).1,
    (arch_jump_entry_size_correct 18 [1, 2, 3, 4, 5]).2.1,
    (arch_jump_entry_size_correct 18 [1, 2, 3, 4, 5]).2.2 (by decide)
      (by decide)⟩

/-- Helper: pointwise description of `mentor_write` when the address is in
range. -/
theorem mentor_write_apply (s : MentorState) (a v : Nat)
    (ha : ¬ MENTOR_TOTAL_WRITES_ADDR ≤ a) (i : Fin 6) :
    mentor_write s a v i =
      if i.val = a then v % U32_LIMIT
      else if i.val = MENTOR_TOTAL_WRITES_ADDR then (s i + 1) % U32_LIMIT
      else s i := by
  unfold mentor_write
  rw [if_neg ha]

/-- Claim C8: writing value `v` at an address `a < 0x05` stores `v` into cell
`a`, increments the total-writes counter at cell `0x05` by exactly one (as a
`u32`, i.e. modulo `2 ^ 32`), leaves every other cell unchanged, and a
subsequent `__mentor_read a` returns `v`. -/
theorem mentor_write_read_frame (s : MentorState) (a v : Nat)
    (ha : a < 0x05) (hv : v < U32_LIMIT) :
    __mentor_read (mentor_write s a v) a = v ∧
    (∀ i : Fin 6, i.val = a → mentor_write s a v i = v) ∧
    (∀ i : Fin 6, i.val = MENTOR_TOTAL_WRITES_ADDR →
      mentor_write s a v i = (s i + 1) % U32_LIMIT) ∧
    (∀ i : Fin 6, i.val ≠ a → i.val ≠ MENTOR_TOTAL_WRITES_ADDR →
      mentor_write s a v i = s i) := by
  have hna : ¬ MENTOR_TOTAL_WRITES_ADDR ≤ a := by
    unfold MENTOR_TOTAL_WRITES_ADDR; omega
  have h2 : ∀ i : Fin 6, i.val = a → mentor_write s a v i = v := by
    intro i hi
    rw [mentor_write_apply s a v hna i, if_pos hi, Nat.mod_eq_of_lt hv]
  refine ⟨?_, h2, ?_, ?_⟩
  · unfold __mentor_read
    rw [dif_neg (by unfold MENTOR_TOTAL_WRITES_ADDR; omega)]
    exact h2 _ rfl
  · intro i hi
    rw [mentor_write_apply s a v hna i,
      if_neg (by unfold MENTOR_TOTAL_WRITES_ADDR at hi; omega), if_pos hi]
  · intro i hia hi5
    rw [mentor_write_apply s a v hna i, if_neg hia, if_neg hi5]

/-- Witness for claim C8's theorem: starting from the initializer, writing 99
at address 2 makes cell 2 read back 99, bumps the counter from 0 to 1, and
leaves cell 3 at its old value 43. -/
theorem mentor_write_read_frame_witness :
    __mentor_read (mentor_write mentor_data_init 2 99) 2 = 99 ∧
    mentor_write mentor_data_init 2 99 5 = 1 ∧
    mentor_write mentor_data_init 2 99 3 = 43 := by
  have h := mentor_write_read_frame mentor_data_init 2 99 (by decide)
    (by decide)
  refine ⟨h.1, ?_, ?_⟩
  · have := h.2.2.1 5 (by decide)
    rw [this]
    decide
  · have := h.2.2.2 3 (by decide) (by decide)
    rw [this]
    decide

/-- Claim C9: out-of-range mentor accesses are rejected without touching the
register file, with an asymmetric boundary at `0x05`: reading an address
strictly above `0x05` returns `0xFFFFFFFF` (the read path never modifies the
state, which this model makes a pure function), writing at any address at or
above `0x05` leaves the whole register file (counter included) unchanged,
and address `0x05` itself is readable, yielding the total-writes counter. -/
theorem mentor_out_of_range (s : MentorState) (a v : Nat) :
    (MENTOR_TOTAL_WRITES_ADDR < a → __mentor_read s a = 0xFFFFFFFF) ∧
    (MENTOR_TOTAL_WRITES_ADDR ≤ a → mentor_write s a v = s) ∧
    __mentor_read s MENTOR_TOTAL_WRITES_ADDR = s 5 := by
  refine ⟨?_, ?_, ?_⟩
  · intro h
    unfold __mentor_read
    rw [dif_pos h]
    rfl
  · intro h
    unfold mentor_write
    rw [if_pos h]
  · unfold __mentor_read
    rw [dif_neg (by unfold MENTOR_TOTAL_WRITES_ADDR; omega)]
    rfl

/-- Witness for claim C9's theorem: reading address 6 of the initial state
returns `0xFFFFFFFF`, writing at address 5 (the counter) changes nothing, and
reading address 5 yields the counter cell. -/
theorem mentor_out_of_range_witness :
    __mentor_read mentor_data_init 6 = 0xFFFFFFFF ∧
    mentor_write mentor_data_init 5 7 = mentor_data_init ∧
    __mentor_read mentor_data_init 5 = mentor_data_init 5 :=
  ⟨(mentor_out_of_range mentor_data_init 6 7).1 (by decide),
   (mentor_out_of_range mentor_data_init 5 7).2.1 (by decide),
   (mentor_out_of_range mentor_data_init 5 7).2.2⟩

/-- Claim C10: for any `KSYM_NAME_LEN` large enough to pass the program's
static assertion, the generator's standard output is exactly
`KSYM_NAME_LEN - 1` characters: the fixed leading string, then the pattern
`123456789_` repeated cyclically (character `i` of the filler is
`pattern[i % 10]`) filling the remaining length, then the fixed trailing
string; and the exit status is 0. -/
theorem kallsyms_gen_longest_correct (n : Nat)
    (h : kallsyms_start.length + kallsyms_end.length ≤ n - 1) :
    (kallsyms_gen_longest_main n).1.length = n - 1 ∧
    (kallsyms_gen_longest_main n).1 =
      kallsyms_start ++
        kallsyms_filler
          ((n - 1) - kallsyms_start.length - kallsyms_end.length) ++
        kallsyms_end ∧
    (∀ i, i < (n - 1) - kallsyms_start.length - kallsyms_end.length →
      (kallsyms_gen_longest_main n).1.getD (kallsyms_start.length + i) ' ' =
        kallsyms_pattern.getD (i % 10) ' ') ∧
    (kallsyms_gen_longest_main n).2 = 0 := by
  have hs : kallsyms_start.length = 38 := by decide
  have he : kallsyms_end.length = 36 := by decide
  have hlen : ∀ m : Nat, (kallsyms_filler m).length = m := by
    intro m; simp [kallsyms_filler]
  rw [hs, he] at h
  refine ⟨?_, rfl, ?_, rfl⟩
  · simp only [kallsyms_gen_longest_main, List.length_append, hlen, hs, he]
    omega
  · intro i hi
    simp only [kallsyms_gen_longest_main, List.append_assoc]
    rw [List.getD_append_right kallsyms_start _ ' ' _ (Nat.le_add_right _ _),
      Nat.add_sub_cancel_left,
      List.getD_append _ kallsyms_end ' ' i (by rw [hlen]; exact hi),
      List.getD_eq_getElem _ _ (by rw [hlen]; exact hi)]
    simp [kallsyms_filler]

/-- Witness for claim C10's theorem at `KSYM_NAME_LEN = 512`: the output is
511 characters long, character 38 (the first filler character) is `1`, and
the exit status is 0. -/
theorem kallsyms_gen_longest_witness :
    (kallsyms_gen_longest_main 512).1.length = 511 ∧
    (kallsyms_gen_longest_main 512).1.getD 38 ' ' = '1' ∧
    (kallsyms_gen_longest_main 512).2 = 0 := by
  have h := kallsyms_gen_longest_correct 512 (by decide)
  refine ⟨?_, ?_, h.2.2.2⟩
  · rw [h.1]
  · have h38 := h.2.2.1 0 (by decide)
    have e1 : kallsyms_start.length + 0 = 38 := by decide
    have e2 : kallsyms_pattern.getD (0 % 10) ' ' = '1' := by decide
    rw [e1, e2] at h38
    exact h38
